import Mathlib

/-!
Shallow embedding of `src/redis.go` (package yiigo): a Redis connection-pool
wrapper over an external generic resource pool, with a named registry.

External collaborators (the redigo client, the vitess resource pool, the
logger) are modelled by oracles for their observable outcomes and by an
explicit trace of the side effects the code under verification performs on
them.  All definitions follow the Go source line by line.
-/

set_option autoImplicit false

namespace yiigo

/-- An opaque error value (Go `error` interface), identified by a code. -/
structure Err where
  code : Nat
deriving DecidableEq, Repr

/-- A raw `redis.Conn` from the client library: an identifier for the
underlying transport handle plus its last-observed error state (`Conn.Err()`). -/
structure Conn where
  id : Nat
  errState : Option Err
deriving DecidableEq, Repr

/-- `RedisConn` wraps a raw connection (`redis.Conn` embedded field).
`conn = none` models the zero value `RedisConn{}` whose embedded interface
is nil (no underlying transport handle). -/
structure RedisConn where
  conn : Option Conn
deriving DecidableEq, Repr

/-- `rc.Err()`: the last-observed error state of the wrapped connection.
Only ever invoked by the source on connections that wrap a real handle. -/
def RedisConn.Err : RedisConn → Option Err
  | ⟨some c⟩ => c.errState
  | ⟨none⟩ => none

/-- Modelled from the spec: nested pool sizing configuration (`poolSetting`,
declared outside src/): min size, max size/limit, idle timeout, prefill count.
Go `int` / `time.Duration` fields are modelled as `Int`. -/
structure poolSetting where
  size : Int
  limit : Int
  idleTimeout : Int
  prefill : Int
deriving DecidableEq, Repr

/-- `redisSetting`: the per-instance configuration (durations in nanoseconds). -/
structure redisSetting where
  address : String
  password : String
  database : Int
  connTimeout : Int
  readTimeout : Int
  writeTimeout : Int
  pool : poolSetting
deriving DecidableEq, Repr

/-- `RedisOption` configures the setting (Go: `func(s *redisSetting)`,
modelled functionally). -/
def RedisOption : Type := redisSetting → redisSetting

/-- The external `vitess_pool.ResourcePool` object, by its observable state:
an identity for the constructed pool object and whether it is closed. -/
structure ResourcePool where
  id : Nat
  closed : Bool
deriving DecidableEq, Repr

/-- `pool.IsClosed()`. -/
def ResourcePool.IsClosed (p : ResourcePool) : Bool := p.closed

/-- `redisPoolResource`: the Pool Instance, holding the configuration and the
current generic-pool reference (`none` models the nil pointer).  The mutex is
not represented: the embedding is of the sequential behaviour the lock
serializes. -/
structure redisPoolResource where
  config : redisSetting
  pool : Option ResourcePool
deriving DecidableEq, Repr

/-- Side effects the code performs on its collaborators, in order. -/
inductive Effect where
  | constructedPool (id : Nat)
  | poolPut (rc : RedisConn)
  | connClosed (rc : RedisConn)
  | logInfo (name : String)
deriving DecidableEq, Repr

/-- The guard of `init`: `r.pool != nil && !r.pool.IsClosed()`. -/
def poolLive : Option ResourcePool → Bool
  | some p => !p.IsClosed
  | none => false

/-- `redisPoolResource.init`: under the lock, if the current generic pool is
live, return; otherwise construct a new generic pool (with a fresh object
identity) from the dial factory and the pool settings. -/
def redisPoolResource.init (r : redisPoolResource) (freshId : Nat) :
    redisPoolResource × List Effect :=
  if poolLive r.pool then (r, [])
  else ({ r with pool := some ⟨freshId, false⟩ }, [Effect.constructedPool freshId])

/-- Oracle for the outcomes of the external calls a single `Get` makes:
the generic pool's `Get(ctx)` (a resource or an exhaustion/timeout error),
the dialer's `r.dial()` (the transport id of a freshly dialed connection —
whose last-observed error state is nil, per the client contract — or a dial
error), and the object identity used if `init` constructs a pool. -/
structure GetEnv where
  poolGet : Except Err RedisConn
  dial : Except Err Nat
  freshPoolId : Nat

/-- What one call of `redisPoolResource.Get` produces: the returned
`*RedisConn` value (the Go method always returns a non-nil pointer), the
returned error, the instance state afterwards, and the effect trace. -/
structure GetResult where
  ret : RedisConn
  err : Option Err
  state : redisPoolResource
  effects : List Effect
deriving DecidableEq, Repr

/-- `redisPoolResource.Get`: re-init a closed pool, take a resource from the
generic pool, and apply the reconnect-on-checkout policy to an errored
connection.  `none` models the nil-pointer dereference that
`r.pool.IsClosed()` would be on an absent pool. -/
def redisPoolResource.Get (r : redisPoolResource) (env : GetEnv) :
    Option GetResult :=
  match r.pool with
  | none => none
  | some p =>
    let ie := if p.IsClosed then r.init env.freshPoolId else (r, [])
    match env.poolGet with
    | .error e => some { ret := ⟨none⟩, err := some e, state := ie.1, effects := ie.2 }
    | .ok rc =>
      match rc.Err with
      | some _ =>
        match env.dial with
        | .error e =>
          some { ret := rc, err := some e, state := ie.1,
                 effects := ie.2 ++ [Effect.poolPut rc] }
        | .ok n =>
          some { ret := ⟨some ⟨n, none⟩⟩, err := none, state := ie.1,
                 effects := ie.2 ++ [Effect.connClosed rc] }
      | none => some { ret := rc, err := none, state := ie.1, effects := ie.2 }

/-- `redisPoolResource.Put`: unconditionally return the connection to the
generic pool. -/
def redisPoolResource.Put (_r : redisPoolResource) (conn : RedisConn) :
    List Effect :=
  [Effect.poolPut conn]

/-- The default `redisSetting` built inside `newRedis` before options apply:
10s connect/read/write timeouts, pool size 10, idle timeout 60s (Go zero
values elsewhere, in particular `limit = 0`). -/
def defaultSetting (address : String) : redisSetting :=
  { address := address, password := "", database := 0,
    connTimeout := 10000000000, readTimeout := 10000000000,
    writeTimeout := 10000000000,
    pool := { size := 10, limit := 0, idleTimeout := 60000000000, prefill := 0 } }

/-- The configuration after the option functions ran, before clamping. -/
def applyOptions (address : String) (options : List RedisOption) : redisSetting :=
  options.foldl (fun c f => f c) (defaultSetting address)

/-- `newRedis`: build the configuration, clamp `limit` up to `size` when
misconfigured, then run `init` and return the instance. -/
def newRedis (address : String) (options : List RedisOption) (freshPoolId : Nat) :
    redisPoolResource :=
  let cfg := applyOptions address options
  let cfg2 :=
    if cfg.pool.limit < cfg.pool.size then
      { cfg with pool := { cfg.pool with limit := cfg.pool.size } }
    else cfg
  (redisPoolResource.init { config := cfg2, pool := none } freshPoolId).1

/-- Modelled from the spec: the reserved default instance key (the constant
`Default`, declared outside src/). -/
def Default : String := "default"

/-- The process-wide registry state: the `defaultRedis` reference and the
`redisMap` name-to-instance mapping (Go `sync.Map`, modelled as an
association list). -/
structure Registry where
  defaultRedis : Option redisPoolResource
  redisMap : List (String × redisPoolResource)
deriving DecidableEq, Repr

/-- `redisMap.Load(name)`. -/
def loadAssoc : List (String × redisPoolResource) → String → Option redisPoolResource
  | [], _ => none
  | (k, v) :: rest, n => if k = n then some v else loadAssoc rest n

/-- `redisMap.Store(name, pool)`. -/
def storeAssoc : List (String × redisPoolResource) → String → redisPoolResource →
    List (String × redisPoolResource)
  | [], n, p => [(n, p)]
  | (k, v) :: rest, n, p =>
    if k = n then (n, p) :: rest else (k, v) :: storeAssoc rest n p

/-- Result of a function that either returns a value or panics fatally via
`logger.Panic` (the Go signature carries no error value). -/
inductive PanicOr (α : Type) where
  | panicked (msg : String)
  | ok (a : α)
deriving DecidableEq, Repr

/-- `Redis(name ...string)`: resolve a pool from the registry; unknown names
and an unset default are fatal panics. -/
def Redis (st : Registry) (name : List String) : PanicOr redisPoolResource :=
  if name.isEmpty || name.headD "" == Default then
    match st.defaultRedis with
    | none =>
      PanicOr.panicked ("yiigo: unknown redis." ++ Default ++ " (forgotten configure?)")
    | some p => PanicOr.ok p
  else
    match loadAssoc st.redisMap (name.headD "") with
    | none =>
      PanicOr.panicked ("yiigo: unknown redis." ++ name.headD "" ++ " (forgotten configure?)")
    | some p => PanicOr.ok p

/-- What one call of `initRedis` produces: `panicMsg = some m` models the
fatal `logger.Panic`, the registry state afterwards, and the effect trace. -/
structure InitResult where
  panicMsg : Option String
  registry : Registry
  effects : List Effect
deriving DecidableEq, Repr

/-- `initRedis(name, address, options...)`: construct the instance via
`newRedis`, verify the connection with a `Get` and a PING round trip
(outcome oracle `ping`), panic on failure, otherwise put the probed
connection back, register the instance (also as default when the name is
the reserved key) and log success. -/
def initRedis (st : Registry) (name address : String) (options : List RedisOption)
    (genv : GetEnv) (ping : Except Err Unit) (freshPoolId : Nat) : InitResult :=
  let pool := newRedis address options freshPoolId
  match pool.Get genv with
  | none => { panicMsg := some "yiigo: redis init error", registry := st, effects := [] }
  | some res =>
    match res.err with
    | some _ =>
      { panicMsg := some "yiigo: redis init error", registry := st,
        effects := res.effects }
    | none =>
      match ping with
      | .error _ =>
        { panicMsg := some "yiigo: redis init error", registry := st,
          effects := res.effects ++ [Effect.connClosed res.ret] }
      | .ok _ =>
        let st1 : Registry :=
          if name = Default then { st with defaultRedis := some res.state } else st
        { panicMsg := none,
          registry := { st1 with redisMap := storeAssoc st1.redisMap name res.state },
          effects := res.effects ++ res.state.Put res.ret ++ [Effect.logInfo name] }

/-- Helper: `Get` on an instance whose pool reference is present always
produces a result (it never hits the nil-pointer dereference). -/
theorem Get_total (r : redisPoolResource) (env : GetEnv) (h : r.pool.isSome = true) :
    (r.Get env).isSome = true := by
  obtain ⟨p, hp⟩ := Option.isSome_iff_exists.mp h
  cases hg : env.poolGet with
  | error e => simp [redisPoolResource.Get, hp, hg]
  | ok rc =>
    cases he : rc.Err with
    | none => simp [redisPoolResource.Get, hp, hg, he]
    | some e0 =>
      cases hd : env.dial with
      | error e => simp [redisPoolResource.Get, hp, hg, he, hd]
      | ok n => simp [redisPoolResource.Get, hp, hg, he, hd]

/-- Claim C1: when the pool hands `Get` a connection whose error state is
set, the value `Get` returns to the caller is never that same connection:
it is the freshly dialed connection when the replacement dial succeeds, or
the dial error when it fails. -/
theorem Get_never_returns_errored (r : redisPoolResource) (env : GetEnv)
    (rc : RedisConn) (hp : r.pool.isSome = true) (hg : env.poolGet = .ok rc)
    (he : rc.Err ≠ none) :
    ∃ res, r.Get env = some res ∧
      (res.err = none → res.ret ≠ rc) ∧
      ((∃ n, env.dial = .ok n ∧ res.err = none ∧ res.ret = ⟨some ⟨n, none⟩⟩) ∨
       (∃ e, env.dial = .error e ∧ res.err = some e)) := by
  obtain ⟨p, hp'⟩ := Option.isSome_iff_exists.mp hp
  obtain ⟨e0, he0⟩ := Option.ne_none_iff_exists'.mp he
  obtain ⟨res, hres⟩ := Option.isSome_iff_exists.mp (Get_total r env hp)
  refine ⟨res, hres, ?_⟩
  cases hd : env.dial with
  | ok n =>
    simp [redisPoolResource.Get, hp', hg, he0, hd] at hres
    subst hres
    refine ⟨fun _ heq => ?_, Or.inl ⟨n, rfl, rfl, rfl⟩⟩
    rw [← heq] at he0
    simp [RedisConn.Err] at he0
  | error e =>
    simp [redisPoolResource.Get, hp', hg, he0, hd] at hres
    subst hres
    exact ⟨fun hcontra => by simp at hcontra, Or.inr ⟨e, rfl, rfl⟩⟩

/-- Witness for C1: a live instance, an errored pooled connection, a dial
that succeeds. -/
theorem Get_never_returns_errored_witness :
    ∃ res,
      (⟨defaultSetting "a", some ⟨0, false⟩⟩ : redisPoolResource).Get
          ⟨Except.ok ⟨some ⟨1, some ⟨7⟩⟩⟩, Except.ok 2, 5⟩ = some res ∧
      (res.err = none → res.ret ≠ ⟨some ⟨1, some ⟨7⟩⟩⟩) ∧
      ((∃ n, (Except.ok 2 : Except Err Nat) = .ok n ∧ res.err = none ∧
          res.ret = ⟨some ⟨n, none⟩⟩) ∨
       (∃ e, (Except.ok 2 : Except Err Nat) = .error e ∧ res.err = some e)) :=
  Get_never_returns_errored ⟨defaultSetting "a", some ⟨0, false⟩⟩
    ⟨Except.ok ⟨some ⟨1, some ⟨7⟩⟩⟩, Except.ok 2, 5⟩ ⟨some ⟨1, some ⟨7⟩⟩⟩
    (by decide) rfl (by decide)

/-- Claim C2: errored connection checked out and the replacement dial fails:
`Get` puts the original errored connection back into the generic pool and
surfaces the dial error as its error result. -/
theorem Get_dial_failure_puts_back (r : redisPoolResource) (env : GetEnv)
    (rc : RedisConn) (e : Err) (hp : r.pool.isSome = true)
    (hg : env.poolGet = .ok rc) (he : rc.Err ≠ none) (hd : env.dial = .error e) :
    ∃ res, r.Get env = some res ∧
      Effect.poolPut rc ∈ res.effects ∧ res.err = some e := by
  obtain ⟨p, hp'⟩ := Option.isSome_iff_exists.mp hp
  obtain ⟨e0, he0⟩ := Option.ne_none_iff_exists'.mp he
  obtain ⟨res, hres⟩ := Option.isSome_iff_exists.mp (Get_total r env hp)
  refine ⟨res, hres, ?_⟩
  simp [redisPoolResource.Get, hp', hg, he0, hd] at hres
  subst hres
  simp

/-- Witness for C2: a live instance, an errored pooled connection, a dial
that fails. -/
theorem Get_dial_failure_puts_back_witness :
    ∃ res,
      (⟨defaultSetting "a", some ⟨0, false⟩⟩ : redisPoolResource).Get
          ⟨Except.ok ⟨some ⟨1, some ⟨7⟩⟩⟩, Except.error ⟨8⟩, 5⟩ = some res ∧
      Effect.poolPut ⟨some ⟨1, some ⟨7⟩⟩⟩ ∈ res.effects ∧ res.err = some ⟨8⟩ :=
  Get_dial_failure_puts_back ⟨defaultSetting "a", some ⟨0, false⟩⟩
    ⟨Except.ok ⟨some ⟨1, some ⟨7⟩⟩⟩, Except.error ⟨8⟩, 5⟩ ⟨some ⟨1, some ⟨7⟩⟩⟩ ⟨8⟩
    (by decide) rfl (by decide) rfl

/-- Claim C3: errored connection checked out and the replacement dial
succeeds: `Get` closes the errored connection, returns the freshly dialed
one, and returns no error. -/
theorem Get_dial_success_swaps (r : redisPoolResource) (env : GetEnv)
    (rc : RedisConn) (n : Nat) (hp : r.pool.isSome = true)
    (hg : env.poolGet = .ok rc) (he : rc.Err ≠ none) (hd : env.dial = .ok n) :
    ∃ res, r.Get env = some res ∧
      Effect.connClosed rc ∈ res.effects ∧
      res.ret = ⟨some ⟨n, none⟩⟩ ∧ res.err = none := by
  obtain ⟨p, hp'⟩ := Option.isSome_iff_exists.mp hp
  obtain ⟨e0, he0⟩ := Option.ne_none_iff_exists'.mp he
  obtain ⟨res, hres⟩ := Option.isSome_iff_exists.mp (Get_total r env hp)
  refine ⟨res, hres, ?_⟩
  simp [redisPoolResource.Get, hp', hg, he0, hd] at hres
  subst hres
  simp

/-- Witness for C3: a live instance, an errored pooled connection, a dial
that succeeds. -/
theorem Get_dial_success_swaps_witness :
    ∃ res,
      (⟨defaultSetting "a", some ⟨0, false⟩⟩ : redisPoolResource).Get
          ⟨Except.ok ⟨some ⟨1, some ⟨7⟩⟩⟩, Except.ok 2, 5⟩ = some res ∧
      Effect.connClosed ⟨some ⟨1, some ⟨7⟩⟩⟩ ∈ res.effects ∧
      res.ret = ⟨some ⟨2, none⟩⟩ ∧ res.err = none :=
  Get_dial_success_swaps ⟨defaultSetting "a", some ⟨0, false⟩⟩
    ⟨Except.ok ⟨some ⟨1, some ⟨7⟩⟩⟩, Except.ok 2, 5⟩ ⟨some ⟨1, some ⟨7⟩⟩⟩ 2
    (by decide) rfl (by decide) rfl

/-- Claim C9: when the generic pool cannot supply a resource, `Get` returns
the pool's error together with a non-nil but empty connection wrapper that
has no underlying transport handle. -/
theorem Get_pool_error_empty_wrapper (r : redisPoolResource) (env : GetEnv)
    (e : Err) (hp : r.pool.isSome = true) (hg : env.poolGet = .error e) :
    ∃ res, r.Get env = some res ∧ res.err = some e ∧ res.ret = ⟨none⟩ := by
  obtain ⟨p, hp'⟩ := Option.isSome_iff_exists.mp hp
  obtain ⟨res, hres⟩ := Option.isSome_iff_exists.mp (Get_total r env hp)
  refine ⟨res, hres, ?_⟩
  simp [redisPoolResource.Get, hp', hg] at hres
  subst hres
  simp

/-- Witness for C9: a live instance whose generic pool reports exhaustion. -/
theorem Get_pool_error_empty_wrapper_witness :
    ∃ res,
      (⟨defaultSetting "a", some ⟨0, false⟩⟩ : redisPoolResource).Get
          ⟨Except.error ⟨3⟩, Except.ok 2, 5⟩ = some res ∧
      res.err = some ⟨3⟩ ∧ res.ret = ⟨none⟩ :=
  Get_pool_error_empty_wrapper ⟨defaultSetting "a", some ⟨0, false⟩⟩
    ⟨Except.error ⟨3⟩, Except.ok 2, 5⟩ ⟨3⟩ (by decide) rfl

/-- Claim C6: in every registry state, calling `Redis` with no argument
returns the same Pool Instance as calling it with the reserved default name. -/
theorem Redis_noArg_eq_Redis_default (st : Registry) :
    Redis st [] = Redis st [Default] := by
  simp [Redis, Default]

/-- Claim C4: `init` on an instance whose generic pool is live leaves the
pool reference unchanged and constructs nothing; a new generic pool is
constructed exactly when the current one is absent or closed. -/
theorem init_live_noop_else_constructs (r : redisPoolResource) (freshId : Nat) :
    (poolLive r.pool = true → r.init freshId = (r, [])) ∧
    (poolLive r.pool = false →
      (r.init freshId).1 = { r with pool := some ⟨freshId, false⟩ } ∧
      (r.init freshId).2 = [Effect.constructedPool freshId]) := by
  constructor
  · intro h
    simp [redisPoolResource.init, h]
  · intro h
    simp [redisPoolResource.init, h]

/-- Witness for C4 at concrete instances: a live pool is left untouched, a
closed pool is replaced by a fresh one. -/
theorem init_live_noop_else_constructs_witness :
    ({ config := defaultSetting "a", pool := some ⟨3, false⟩ } :
        redisPoolResource).init 9 =
      ({ config := defaultSetting "a", pool := some ⟨3, false⟩ }, []) ∧
    (({ config := defaultSetting "a", pool := some ⟨3, true⟩ } :
        redisPoolResource).init 9).1 =
      { config := defaultSetting "a", pool := some ⟨9, false⟩ } :=
  ⟨(init_live_noop_else_constructs ⟨defaultSetting "a", some ⟨3, false⟩⟩ 9).1 (by decide),
   ((init_live_noop_else_constructs ⟨defaultSetting "a", some ⟨3, true⟩⟩ 9).2 (by decide)).1⟩

/-- Claim C5: looking up a never-registered name, or the default when no
default instance was ever registered, is a fatal panic; `Redis` never
returns a usable pool there (its return type carries no error value at all). -/
theorem Redis_unknown_fatal (st : Registry) (n : String) :
    (loadAssoc st.redisMap n = none → n ≠ Default →
      Redis st [n] =
        PanicOr.panicked ("yiigo: unknown redis." ++ n ++ " (forgotten configure?)")) ∧
    (st.defaultRedis = none →
      Redis st [] =
        PanicOr.panicked ("yiigo: unknown redis." ++ Default ++ " (forgotten configure?)") ∧
      Redis st [Default] =
        PanicOr.panicked ("yiigo: unknown redis." ++ Default ++ " (forgotten configure?)")) := by
  constructor
  · intro h1 h2
    simp [Redis, h1, h2]
  · intro h
    constructor <;> simp [Redis, h]

/-- Witness for C5: the empty registry panics on an unknown name and on the
unset default. -/
theorem Redis_unknown_fatal_witness :
    Redis ⟨none, []⟩ ["x"] =
      PanicOr.panicked ("yiigo: unknown redis." ++ "x" ++ " (forgotten configure?)") ∧
    Redis ⟨none, []⟩ [] =
      PanicOr.panicked ("yiigo: unknown redis." ++ Default ++ " (forgotten configure?)") :=
  ⟨(Redis_unknown_fatal ⟨none, []⟩ "x").1 rfl (by decide),
   ((Redis_unknown_fatal ⟨none, []⟩ "x").2 rfl).1⟩

/-- Claim C7: `newRedis` silently raises a configured limit below size up to
the size, so the constructed instance always satisfies limit ≥ size; a
well-formed configuration is kept as is, and no error is ever raised
(`newRedis` is total). -/
theorem newRedis_clamps_limit (address : String) (options : List RedisOption)
    (fid : Nat) :
    (newRedis address options fid).config.pool.size ≤
      (newRedis address options fid).config.pool.limit ∧
    ((applyOptions address options).pool.limit <
        (applyOptions address options).pool.size →
      (newRedis address options fid).config.pool.limit =
        (applyOptions address options).pool.size ∧
      (newRedis address options fid).config.pool.size =
        (applyOptions address options).pool.size) ∧
    ((applyOptions address options).pool.size ≤
        (applyOptions address options).pool.limit →
      (newRedis address options fid).config = applyOptions address options) := by
  by_cases h :
      (applyOptions address options).pool.limit <
        (applyOptions address options).pool.size
  · refine ⟨?_, fun _ => ⟨?_, ?_⟩, fun h2 => absurd h (not_lt.mpr h2)⟩ <;>
      simp [newRedis, redisPoolResource.init, poolLive, h]
  · refine ⟨?_, fun h1 => absurd h1 h, fun _ => ?_⟩ <;>
      simp [newRedis, redisPoolResource.init, poolLive, h]
    omega

/-- Witness for C7: a configuration with limit 1 below size 5 is clamped. -/
theorem newRedis_clamps_limit_witness :
    (newRedis "a" [fun s => { s with pool := { s.pool with size := 5, limit := 1 } }]
        0).config.pool.limit =
      (applyOptions "a"
        [fun s => { s with pool := { s.pool with size := 5, limit := 1 } }]).pool.size :=
  ((newRedis_clamps_limit "a"
      [fun s => { s with pool := { s.pool with size := 5, limit := 1 } }] 0).2.1
    (by decide)).1

/-- Claim C10: every instance `newRedis` builds carries a non-nil generic
pool; `Get` on such an instance never hits the nil-pointer dereference; and
`Get` leaves the instance untouched on a live pool, re-running `init` (which
installs a fresh pool) only when the current pool is closed. -/
theorem pool_reference_never_nil :
    (∀ (address : String) (options : List RedisOption) (fid : Nat),
      (newRedis address options fid).pool = some ⟨fid, false⟩) ∧
    (∀ (r : redisPoolResource) (env : GetEnv),
      r.pool.isSome = true → (redisPoolResource.Get r env).isSome = true) ∧
    (∀ (r : redisPoolResource) (p : ResourcePool) (env : GetEnv),
      r.pool = some p → p.IsClosed = false →
      ∃ res, r.Get env = some res ∧ res.state = r) ∧
    (∀ (r : redisPoolResource) (p : ResourcePool) (env : GetEnv),
      r.pool = some p → p.IsClosed = true →
      ∃ res, r.Get env = some res ∧
        res.state.pool = some ⟨env.freshPoolId, false⟩) := by
  refine ⟨?_, fun r env h => Get_total r env h, ?_, ?_⟩
  · intro address options fid
    simp [newRedis, redisPoolResource.init, poolLive]
  · intro r p env hp hc
    obtain ⟨res, hres⟩ := Option.isSome_iff_exists.mp (Get_total r env (by simp [hp]))
    refine ⟨res, hres, ?_⟩
    cases hg : env.poolGet with
    | error e =>
      simp [redisPoolResource.Get, hp, hg, hc] at hres
      subst hres
      rfl
    | ok rc =>
      cases he : rc.Err with
      | none =>
        simp [redisPoolResource.Get, hp, hg, he, hc] at hres
        subst hres
        rfl
      | some e0 =>
        cases hd : env.dial with
        | error e =>
          simp [redisPoolResource.Get, hp, hg, he, hd, hc] at hres
          subst hres
          rfl
        | ok n =>
          simp [redisPoolResource.Get, hp, hg, he, hd, hc] at hres
          subst hres
          rfl
  · intro r p env hp hc
    obtain ⟨res, hres⟩ := Option.isSome_iff_exists.mp (Get_total r env (by simp [hp]))
    refine ⟨res, hres, ?_⟩
    cases hg : env.poolGet with
    | error e =>
      simp [redisPoolResource.Get, redisPoolResource.init, poolLive, hp, hg, hc] at hres
      subst hres
      rfl
    | ok rc =>
      cases he : rc.Err with
      | none =>
        simp [redisPoolResource.Get, redisPoolResource.init, poolLive, hp, hg, he, hc] at hres
        subst hres
        rfl
      | some e0 =>
        cases hd : env.dial with
        | error e =>
          simp [redisPoolResource.Get, redisPoolResource.init, poolLive,
                hp, hg, he, hd, hc] at hres
          subst hres
          rfl
        | ok n =>
          simp [redisPoolResource.Get, redisPoolResource.init, poolLive,
                hp, hg, he, hd, hc] at hres
          subst hres
          rfl

/-- Witness for C10: a built instance has a pool; `Get` keeps a live pool
and replaces a closed one. -/
theorem pool_reference_never_nil_witness :
    (newRedis "a" [] 4).pool = some ⟨4, false⟩ ∧
    (∃ res, (⟨defaultSetting "a", some ⟨0, false⟩⟩ : redisPoolResource).Get
        ⟨Except.error ⟨1⟩, Except.ok 2, 5⟩ = some res ∧
      res.state = ⟨defaultSetting "a", some ⟨0, false⟩⟩) ∧
    (∃ res, (⟨defaultSetting "a", some ⟨0, true⟩⟩ : redisPoolResource).Get
        ⟨Except.error ⟨1⟩, Except.ok 2, 5⟩ = some res ∧
      res.state.pool = some ⟨5, false⟩) :=
  ⟨pool_reference_never_nil.1 "a" [] 4,
   pool_reference_never_nil.2.2.1 ⟨defaultSetting "a", some ⟨0, false⟩⟩ ⟨0, false⟩
     ⟨Except.error ⟨1⟩, Except.ok 2, 5⟩ rfl rfl,
   pool_reference_never_nil.2.2.2 ⟨defaultSetting "a", some ⟨0, true⟩⟩ ⟨0, true⟩
     ⟨Except.error ⟨1⟩, Except.ok 2, 5⟩ rfl rfl⟩

/-- Helper: storing under a name and loading that same name yields the
stored instance. -/
theorem loadAssoc_storeAssoc (m : List (String × redisPoolResource)) (n : String)
    (p : redisPoolResource) :
    loadAssoc (storeAssoc m n p) n = some p := by
  induction m with
  | nil => simp [storeAssoc, loadAssoc]
  | cons kv rest ih =>
    obtain ⟨k, v⟩ := kv
    by_cases h : k = n <;> simp [storeAssoc, loadAssoc, h, ih]

/-- Claim C8: `initRedis` builds the instance with its live pool, probes it
once; a failed `Get` or a failed PING is a fatal panic (PING failure also
closes the probed connection) leaving the registry untouched; on success the
probed connection is put back, the instance is stored under its name (also
as default when the name is the reserved key) and a success diagnostic is
logged. -/
theorem initRedis_bootstrap (st : Registry) (name address : String)
    (options : List RedisOption) (genv : GetEnv) (ping : Except Err Unit)
    (fid : Nat) :
    (newRedis address options fid).pool = some ⟨fid, false⟩ ∧
    ∃ res, (newRedis address options fid).Get genv = some res ∧
      (∀ (e : Err), res.err = some e →
        initRedis st name address options genv ping fid =
          { panicMsg := some "yiigo: redis init error", registry := st,
            effects := res.effects }) ∧
      (∀ (e : Err), res.err = none → ping = Except.error e →
        initRedis st name address options genv ping fid =
          { panicMsg := some "yiigo: redis init error", registry := st,
            effects := res.effects ++ [Effect.connClosed res.ret] }) ∧
      (res.err = none → ping = Except.ok () →
        (initRedis st name address options genv ping fid).panicMsg = none ∧
        Effect.poolPut res.ret ∈ (initRedis st name address options genv ping fid).effects ∧
        Effect.logInfo name ∈ (initRedis st name address options genv ping fid).effects ∧
        loadAssoc (initRedis st name address options genv ping fid).registry.redisMap
          name = some res.state ∧
        (name = Default →
          (initRedis st name address options genv ping fid).registry.defaultRedis =
            some res.state)) := by
  have hpool : (newRedis address options fid).pool = some ⟨fid, false⟩ := by
    simp [newRedis, redisPoolResource.init, poolLive]
  obtain ⟨res, hres⟩ := Option.isSome_iff_exists.mp
    (Get_total (newRedis address options fid) genv (by simp [hpool]))
  refine ⟨hpool, res, hres, ?_, ?_, ?_⟩
  · intro e heq
    simp [initRedis, hres, heq]
  · intro e hn hping
    simp [initRedis, hres, hn, hping]
  · intro hn hping
    refine ⟨?_, ?_, ?_, ?_, ?_⟩
    · simp [initRedis, hres, hn, hping]
    · simp [initRedis, hres, hn, hping, redisPoolResource.Put]
    · simp [initRedis, hres, hn, hping, redisPoolResource.Put]
    · simp [initRedis, hres, hn, hping, loadAssoc_storeAssoc]
    · intro hD
      simp [initRedis, hres, hn, hping, hD]

/-- Witness for C8: direct instantiation at a concrete bootstrap of
`"cache1"` whose probe succeeds. -/
theorem initRedis_bootstrap_witness :
    (newRedis "a" [] 0).pool = some ⟨0, false⟩ ∧
    ∃ res, (newRedis "a" [] 0).Get ⟨Except.ok ⟨some ⟨1, none⟩⟩, Except.ok 9, 5⟩ =
        some res ∧
      (∀ (e : Err), res.err = some e →
        initRedis ⟨none, []⟩ "cache1" "a" [] ⟨Except.ok ⟨some ⟨1, none⟩⟩, Except.ok 9, 5⟩
            (Except.ok ()) 0 =
          { panicMsg := some "yiigo: redis init error", registry := ⟨none, []⟩,
            effects := res.effects }) ∧
      (∀ (e : Err), res.err = none → (Except.ok () : Except Err Unit) = Except.error e →
        initRedis ⟨none, []⟩ "cache1" "a" [] ⟨Except.ok ⟨some ⟨1, none⟩⟩, Except.ok 9, 5⟩
            (Except.ok ()) 0 =
          { panicMsg := some "yiigo: redis init error", registry := ⟨none, []⟩,
            effects := res.effects ++ [Effect.connClosed res.ret] }) ∧
      (res.err = none → (Except.ok () : Except Err Unit) = Except.ok () →
        (initRedis ⟨none, []⟩ "cache1" "a" [] ⟨Except.ok ⟨some ⟨1, none⟩⟩, Except.ok 9, 5⟩
            (Except.ok ()) 0).panicMsg = none ∧
        Effect.poolPut res.ret ∈
          (initRedis ⟨none, []⟩ "cache1" "a" [] ⟨Except.ok ⟨some ⟨1, none⟩⟩, Except.ok 9, 5⟩
            (Except.ok ()) 0).effects ∧
        Effect.logInfo "cache1" ∈
          (initRedis ⟨none, []⟩ "cache1" "a" [] ⟨Except.ok ⟨some ⟨1, none⟩⟩, Except.ok 9, 5⟩
            (Except.ok ()) 0).effects ∧
        loadAssoc
          (initRedis ⟨none, []⟩ "cache1" "a" [] ⟨Except.ok ⟨some ⟨1, none⟩⟩, Except.ok 9, 5⟩
            (Except.ok ()) 0).registry.redisMap "cache1" = some res.state ∧
        ("cache1" = Default →
          (initRedis ⟨none, []⟩ "cache1" "a" [] ⟨Except.ok ⟨some ⟨1, none⟩⟩, Except.ok 9, 5⟩
            (Except.ok ()) 0).registry.defaultRedis = some res.state)) :=
  initRedis_bootstrap ⟨none, []⟩ "cache1" "a" []
    ⟨Except.ok ⟨some ⟨1, none⟩⟩, Except.ok 9, 5⟩ (Except.ok ()) 0

end yiigo
